import Mathlib

/-!
Verification of the REMARCHIVE fan-content archive server and client helpers.

JavaScript strings are modelled as `List Char`.  Express route handlers are
modelled as pure functions from a database state and a request body to a
response together with the next database state.  The persistence layer
(`server/storage.ts`) and auth middleware (`server/auth.ts`) are not part of
the source tree available here; their operations are modelled from the spec
and marked as such in their doc comments.
-/

namespace Remarchive

/-! ## JavaScript string primitives (modelled over `List Char`) -/

/-- Whitespace characters removed by JavaScript `String.prototype.trim`
(the common ones: space, tab, newline, carriage return, form feed, vertical tab). -/
def jsWhitespace (c : Char) : Bool :=
  c = ' ' || c = '\t' || c = '\n' || c = '\r' || c = '\x0c' || c = '\x0b'

/-- JavaScript `s.trim()`: strip leading and trailing whitespace. -/
def trimChars (l : List Char) : List Char :=
  ((l.dropWhile jsWhitespace).reverse.dropWhile jsWhitespace).reverse

/-- JavaScript `s.split(sep)` for a single-character separator: always returns a
non-empty list of segments; splitting the empty string yields `[[]]`. -/
def splitOnChar (sep : Char) : List Char → List (List Char)
  | [] => [[]]
  | c :: cs =>
    match splitOnChar sep cs with
    | [] => [[c]]
    | l :: ls => if c = sep then [] :: l :: ls else (c :: l) :: ls

/-- JavaScript `arr.join(sep)` for a single-character separator. -/
def joinChar (sep : Char) : List (List Char) → List Char
  | [] => []
  | [l] => l
  | l :: m :: ms => l ++ sep :: joinChar sep (m :: ms)

/-! ## Client AO3 import helpers (AO3Import component) -/

/-- Result of `parseManualContent`: the fields of the partial work data the
client helper returns (`description` and `tags` are always left empty). -/
structure ParsedContent where
  title : List Char
  content : List Char
  description : List Char
  tags : List (List Char)
  deriving Repr, DecidableEq

/-- `parseManualContent` from the AO3Import component: split the pasted text on
newlines; when the first line is truthy (non-empty), shorter than 200
characters and free of periods, it becomes the (trimmed) title and the
remaining lines, re-joined and trimmed, become the content; otherwise the
whole text is the content and the title stays empty. -/
def parseManualContent (content : List Char) : ParsedContent :=
  let lines := splitOnChar '\n' content
  let line0 := lines.headD []
  if line0 ≠ [] ∧ line0.length < 200 ∧ '.' ∉ line0 then
    { title := trimChars line0
      content := trimChars (joinChar '\n' lines.tail)
      description := []
      tags := [] }
  else
    { title := [], content := content, description := [], tags := [] }

/-- The part of the AO3 URL test after the scheme: the optional `www.`, the
literal host-and-path `archiveofourown.org/works/` (26 characters), then at
least one digit. -/
def validateAO3Host (rest : List Char) : Bool :=
  let rest := if ("www.".toList).isPrefixOf rest then rest.drop 4 else rest
  if ("archiveofourown.org/works/".toList).isPrefixOf rest then
    match rest.drop 26 with
    | [] => false
    | c :: _ => c.isDigit
  else false

/-- `validateAO3Url` from the AO3Import component: test of the regular
expression `^https?:\/\/(www\.)?archiveofourown\.org\/works\/\d+`
(anchored at the start only). -/
def validateAO3Url (url : List Char) : Bool :=
  if ("https://".toList).isPrefixOf url then validateAO3Host (url.drop 8)
  else if ("http://".toList).isPrefixOf url then validateAO3Host (url.drop 7)
  else false

/-! ## Data model (spec section 3) -/

/-- User roles. -/
inductive Role where
  | user
  | moderator
  | admin
  deriving Repr, DecidableEq

structure User where
  id : Nat
  email : String
  username : String
  passwordHash : String
  firstName : Option String
  lastName : Option String
  role : Role
  isBanned : Bool
  ageVerified : Bool
  deriving Repr, DecidableEq

structure Fanwork where
  id : Nat
  authorId : Nat
  title : String
  description : Option String
  type : String
  rating : String
  content : Option String
  contentUrl : Option String
  ao3WorkId : Option String
  ao3Url : Option String
  hidden : Bool
  deriving Repr, DecidableEq

structure Comment where
  id : Nat
  fanworkId : Nat
  userId : Nat
  content : String
  deriving Repr, DecidableEq

structure Report where
  id : Nat
  reporterId : Nat
  targetType : String
  targetId : Nat
  reason : String
  status : String
  deriving Repr, DecidableEq

/-- The persistence state: relational tables plus an id counter.
Likes and bookmarks are `(userId, fanworkId)` pair tables; `fanworkTags`
is the fanwork/tag join table as `(fanworkId, tagName)` rows. -/
structure DB where
  users : List User
  fanworks : List Fanwork
  comments : List Comment
  reports : List Report
  fanworkTags : List (Nat × String)
  likes : List (Nat × Nat)
  bookmarks : List (Nat × Nat)
  nextId : Nat
  deriving Repr, DecidableEq

/-! ## Persistence layer (server/storage.ts — not in the available tree) -/

/-- Modelled from the spec: `storage.getUserByEmail` of the persistence
facade; email is a unique key, so lookup returns the first (only) match. -/
def getUserByEmail (db : DB) (email : String) : Option User :=
  db.users.find? (fun u => u.email == email)

/-- Modelled from the spec: `storage.getUserByUsername`; username is a
unique key. -/
def getUserByUsername (db : DB) (username : String) : Option User :=
  db.users.find? (fun u => u.username == username)

structure NewUser where
  email : String
  username : String
  passwordHash : String
  firstName : Option String
  lastName : Option String
  deriving Repr, DecidableEq

/-- Modelled from the spec: `storage.createUser` inserts a fresh user row
with role `user`, not banned, and returns it. -/
def createUser (db : DB) (n : NewUser) : User × DB :=
  let u : User :=
    { id := db.nextId, email := n.email, username := n.username
      passwordHash := n.passwordHash, firstName := n.firstName
      lastName := n.lastName, role := .user, isBanned := false
      ageVerified := false }
  (u, { db with users := db.users ++ [u], nextId := db.nextId + 1 })

/-- Modelled from the spec: `storage.toggleLike` — like rows are
`(userId, fanworkId)` pairs whose existence is toggled; the returned boolean
is the new membership state. -/
def toggleLike (db : DB) (userId fanworkId : Nat) : Bool × DB :=
  if db.likes.contains (userId, fanworkId) then
    (false, { db with likes := db.likes.filter (fun p => p ≠ (userId, fanworkId)) })
  else
    (true, { db with likes := (userId, fanworkId) :: db.likes })

/-- Modelled from the spec: `storage.toggleBookmark`, the bookmark analogue
of `toggleLike`. -/
def toggleBookmark (db : DB) (userId fanworkId : Nat) : Bool × DB :=
  if db.bookmarks.contains (userId, fanworkId) then
    (false, { db with bookmarks := db.bookmarks.filter (fun p => p ≠ (userId, fanworkId)) })
  else
    (true, { db with bookmarks := (userId, fanworkId) :: db.bookmarks })

structure NewFanwork where
  title : String
  description : Option String
  type : String
  rating : String
  authorId : Nat
  content : Option String
  contentUrl : Option String
  ao3WorkId : Option String
  ao3Url : Option String
  deriving Repr, DecidableEq

/-- Modelled from the spec: `storage.createFanwork` inserts a fresh fanwork
row (not hidden) and returns it. -/
def createFanwork (db : DB) (n : NewFanwork) : Fanwork × DB :=
  let fw : Fanwork :=
    { id := db.nextId, authorId := n.authorId, title := n.title
      description := n.description, type := n.type, rating := n.rating
      content := n.content, contentUrl := n.contentUrl
      ao3WorkId := n.ao3WorkId, ao3Url := n.ao3Url, hidden := false }
  (fw, { db with fanworks := db.fanworks ++ [fw], nextId := db.nextId + 1 })

/-- Modelled from the spec: `storage.addTagsToFanwork` inserts one join row
per tag name for the given fanwork. -/
def addTagsToFanwork (db : DB) (fanworkId : Nat) (tags : List String) : DB :=
  { db with fanworkTags := db.fanworkTags ++ tags.map (fun t => (fanworkId, t)) }

structure NewComment where
  fanworkId : Nat
  userId : Nat
  content : String
  deriving Repr, DecidableEq

/-- Modelled from the spec: `storage.createComment`. -/
def createComment (db : DB) (n : NewComment) : Comment × DB :=
  let c : Comment :=
    { id := db.nextId, fanworkId := n.fanworkId, userId := n.userId
      content := n.content }
  (c, { db with comments := db.comments ++ [c], nextId := db.nextId + 1 })

structure NewReport where
  reporterId : Nat
  targetType : String
  targetId : Nat
  reason : String
  deriving Repr, DecidableEq

/-- Modelled from the spec: `storage.createReport` inserts a pending report. -/
def createReport (db : DB) (n : NewReport) : Report × DB :=
  let r : Report :=
    { id := db.nextId, reporterId := n.reporterId, targetType := n.targetType
      targetId := n.targetId, reason := n.reason, status := "pending" }
  (r, { db with reports := db.reports ++ [r], nextId := db.nextId + 1 })

/-! ## Auth helpers (server/auth.ts — not in the available tree) -/

/-- Modelled from the spec: password hashing is delegated to a standard
library; only the round-trip with `comparePassword` matters here. -/
def hashPassword (password : String) : String :=
  "hashed:" ++ password

/-- Modelled from the spec: `comparePassword` succeeds exactly when the
plaintext hashes to the stored hash. -/
def comparePassword (password hash : String) : Bool :=
  hashPassword password == hash

/-- Modelled from the spec: a self-contained stateless credential for a
user id, issued by `generateToken`. -/
def generateToken (userId : Nat) : String :=
  "token:" ++ toString userId

/-- The identity the auth middleware attaches to a request. -/
structure AuthUser where
  id : Nat
  role : Role
  deriving Repr, DecidableEq

/-- Outcome of an auth middleware check. -/
inductive AuthResult where
  | ok (u : AuthUser)
  | unauthorized
  | forbidden
  deriving Repr, DecidableEq

/-- Modelled from the spec: `requireModerator` — the role-gated middleware
variant; a missing/invalid credential fails Unauthorized, an attached role
below moderator fails Forbidden, moderator and admin proceed. -/
def requireModerator (cred : Option AuthUser) : AuthResult :=
  match cred with
  | none => .unauthorized
  | some u => if u.role = .user then .forbidden else .ok u

/-! ## Validation schemas (routes.ts lines 16-33, plus @shared/schema) -/

/-- All named checks are evaluated and every failing field is collected, as
zod object parsing aggregates the issues of all fields rather than stopping
at the first. -/
def collectErrors (checks : List (String × Bool)) : List String :=
  checks.filterMap (fun c => if c.2 then none else some c.1)

/-- A required field passes its check only when present. -/
def optCheck (f : Option String) (p : String → Bool) : Bool :=
  match f with
  | none => false
  | some s => p s

/-- Models the zod `z.string().email()` format test: a single `@` with a
non-empty local part and a dotted non-empty domain, no whitespace.  (zod
uses a fixed richer regular expression; the claims depend only on the
pass/fail split of a fixed format check.) -/
def isEmailFormat (s : String) : Bool :=
  match splitOnChar '@' s.toList with
  | [lp, dom] => !lp.isEmpty && !dom.isEmpty && dom.contains '.' && !(s.toList.any jsWhitespace)
  | _ => false

/-- Models the zod `z.string().url()` format test (zod delegates to the URL
constructor; a scheme followed by a non-empty remainder suffices here). -/
def isUrlFormat (s : String) : Bool :=
  (s.startsWith "http://" && s.length > 7) || (s.startsWith "https://" && s.length > 8)

structure RegisterBody where
  email : Option String
  username : Option String
  password : Option String
  firstName : Option String
  lastName : Option String
  deriving Repr, DecidableEq

/-- `registerSchema`: email format, username length 3..50, password length
at least 6; firstName/lastName optional. -/
def registerChecks (b : RegisterBody) : List (String × Bool) :=
  [("email", optCheck b.email isEmailFormat),
   ("username", optCheck b.username (fun s => 3 ≤ s.length && s.length ≤ 50)),
   ("password", optCheck b.password (fun s => 6 ≤ s.length))]

def registerErrors (b : RegisterBody) : List String :=
  collectErrors (registerChecks b)

structure RegisterData where
  email : String
  username : String
  password : String
  firstName : Option String
  lastName : Option String
  deriving Repr, DecidableEq

def registerData (b : RegisterBody) : RegisterData :=
  { email := b.email.getD "", username := b.username.getD ""
    password := b.password.getD "", firstName := b.firstName
    lastName := b.lastName }

def registerParse (b : RegisterBody) : Except (List String) RegisterData :=
  if registerErrors b = [] then .ok (registerData b) else .error (registerErrors b)

structure LoginBody where
  email : Option String
  password : Option String
  deriving Repr, DecidableEq

/-- `loginSchema`: email format; password any string (but required). -/
def loginChecks (b : LoginBody) : List (String × Bool) :=
  [("email", optCheck b.email isEmailFormat),
   ("password", optCheck b.password (fun _ => true))]

def loginErrors (b : LoginBody) : List String :=
  collectErrors (loginChecks b)

structure LoginData where
  email : String
  password : String
  deriving Repr, DecidableEq

def loginData (b : LoginBody) : LoginData :=
  { email := b.email.getD "", password := b.password.getD "" }

def loginParse (b : LoginBody) : Except (List String) LoginData :=
  if loginErrors b = [] then .ok (loginData b) else .error (loginErrors b)

structure Ao3Body where
  ao3Url : Option String
  title : Option String
  description : Option String
  deriving Repr, DecidableEq

/-- `ao3ImportSchema`: ao3Url must be a URL; title/description optional. -/
def ao3Checks (b : Ao3Body) : List (String × Bool) :=
  [("ao3Url", optCheck b.ao3Url isUrlFormat)]

def ao3Errors (b : Ao3Body) : List String :=
  collectErrors (ao3Checks b)

structure Ao3Data where
  ao3Url : String
  title : Option String
  description : Option String
  deriving Repr, DecidableEq

def ao3Data (b : Ao3Body) : Ao3Data :=
  { ao3Url := b.ao3Url.getD "", title := b.title, description := b.description }

def ao3Parse (b : Ao3Body) : Except (List String) Ao3Data :=
  if ao3Errors b = [] then .ok (ao3Data b) else .error (ao3Errors b)

/-- A JSON / query value that is either a single string or an array of
strings (Express produces either depending on repetition of the key). -/
inductive StrOrArr where
  | str (s : String)
  | arr (l : List String)
  deriving Repr, DecidableEq

/-- JavaScript truthiness of such a value: the empty string is falsy; every
array (even the empty one) is truthy. -/
def strOrArrTruthy : StrOrArr → Bool
  | .str s => s ≠ ""
  | .arr _ => true

/-- `Array.isArray(v) ? v : [v]` -/
def toStringList : StrOrArr → List String
  | .str s => [s]
  | .arr l => l

structure FanworkBody where
  title : Option String
  description : Option String
  type : Option String
  rating : Option String
  content : Option String
  tags : Option StrOrArr
  deriving Repr, DecidableEq

def fanworkTypes : List String := ["artwork", "fanfiction", "comic"]

def fanworkRatings : List String := ["all-ages", "teen", "mature", "explicit"]

/-- Modelled from the spec: `insertFanworkSchema` of @shared/schema (not in
the available tree) — title required, type and rating required members of
their enumerations, description/content optional; authorId and contentUrl
are supplied by the handler, not the body. -/
def fanworkChecks (b : FanworkBody) : List (String × Bool) :=
  [("title", optCheck b.title (fun s => s ≠ "")),
   ("type", optCheck b.type (fun s => fanworkTypes.contains s)),
   ("rating", optCheck b.rating (fun s => fanworkRatings.contains s))]

def fanworkErrors (b : FanworkBody) : List String :=
  collectErrors (fanworkChecks b)

structure FanworkData where
  title : String
  description : Option String
  type : String
  rating : String
  content : Option String
  deriving Repr, DecidableEq

def fanworkData (b : FanworkBody) : FanworkData :=
  { title := b.title.getD "", description := b.description
    type := b.type.getD "", rating := b.rating.getD "", content := b.content }

def fanworkParse (b : FanworkBody) : Except (List String) FanworkData :=
  if fanworkErrors b = [] then .ok (fanworkData b) else .error (fanworkErrors b)

structure CommentBody where
  content : Option String
  deriving Repr, DecidableEq

/-- Modelled from the spec: `insertCommentSchema` of @shared/schema (not in
the available tree) — a required non-empty content string; fanworkId and
userId are supplied by the handler. -/
def commentChecks (b : CommentBody) : List (String × Bool) :=
  [("content", optCheck b.content (fun s => s ≠ ""))]

def commentErrors (b : CommentBody) : List String :=
  collectErrors (commentChecks b)

def commentParse (b : CommentBody) : Except (List String) String :=
  if commentErrors b = [] then .ok ((b.content).getD "") else .error (commentErrors b)

structure ReportBody where
  targetType : Option String
  targetId : Option Nat
  reason : Option String
  deriving Repr, DecidableEq

def reportTargetTypes : List String := ["fanwork", "comment", "user"]

/-- Modelled from the spec: `insertReportSchema` of @shared/schema (not in
the available tree) — a target reference (type from an enumeration plus an
id) and a required reason; reporterId is supplied by the handler. -/
def reportChecks (b : ReportBody) : List (String × Bool) :=
  [("targetType", optCheck b.targetType (fun s => reportTargetTypes.contains s)),
   ("targetId", (b.targetId).isSome),
   ("reason", optCheck b.reason (fun s => s ≠ ""))]

def reportErrors (b : ReportBody) : List String :=
  collectErrors (reportChecks b)

structure ReportData where
  targetType : String
  targetId : Nat
  reason : String
  deriving Repr, DecidableEq

def reportData (b : ReportBody) : ReportData :=
  { targetType := (b.targetType).getD "", targetId := (b.targetId).getD 0
    reason := (b.reason).getD "" }

def reportParse (b : ReportBody) : Except (List String) ReportData :=
  if reportErrors b = [] then .ok (reportData b) else .error (reportErrors b)

/-! ## Catalog filters (GET /api/fanworks, routes.ts lines 159-177) -/

def parseDigitsJS (s : List Char) : Option Nat :=
  let ds := s.takeWhile Char.isDigit
  if ds.isEmpty then none
  else some (ds.foldl (fun acc c => acc * 10 + (c.toNat - 48)) 0)

/-- JavaScript `parseInt(s)` on its base-10 path: skip leading whitespace,
accept an optional sign, read the leading run of decimal digits; `none`
models `NaN`. -/
def parseIntJS (s : String) : Option Int :=
  match s.toList.dropWhile jsWhitespace with
  | '-' :: rest => (parseDigitsJS rest).map (fun n => -(n : Int))
  | '+' :: rest => (parseDigitsJS rest).map (fun n => (n : Int))
  | rest => (parseDigitsJS rest).map (fun n => (n : Int))

/-- The filter record the handler passes to `storage.getFanworks`;
`limit`/`offset` are `none` when `parseInt` produced `NaN`. -/
structure FanworkFilters where
  type : Option (List String)
  rating : Option (List String)
  tags : Option (List String)
  search : Option String
  authorId : Option String
  limit : Option Int
  offset : Option Int
  deriving Repr, DecidableEq

/-- The raw query string of a GET /api/fanworks request as Express presents
it: repeated keys become arrays. -/
structure FanworksQuery where
  type : Option StrOrArr
  rating : Option StrOrArr
  tags : Option StrOrArr
  search : Option String
  authorId : Option String
  limit : Option String
  offset : Option String
  deriving Repr, DecidableEq

/-- `req.query.k ? (Array.isArray(req.query.k) ? req.query.k : [req.query.k]) : undefined` -/
def listParam (v : Option StrOrArr) : Option (List String) :=
  match v with
  | none => none
  | some w => if strOrArrTruthy w then some (toStringList w) else none

/-- `req.query.k ? parseInt(req.query.k) : dflt` -/
def intParam (v : Option String) (dflt : Int) : Option Int :=
  match v with
  | none => some dflt
  | some s => if s ≠ "" then parseIntJS s else some dflt

/-- The filter construction of the GET /api/fanworks handler
(routes.ts lines 161-169). -/
def parseFanworksFilters (q : FanworksQuery) : FanworkFilters :=
  { type := listParam q.type
    rating := listParam q.rating
    tags := listParam q.tags
    search := q.search
    authorId := q.authorId
    limit := intParam q.limit 20
    offset := intParam q.offset 0 }

/-- A fanwork passes the tag filter when it carries at least one of the
requested tag names. -/
def matchesTagFilter (db : DB) (ts : List String) (fw : Fanwork) : Bool :=
  ts.any (fun t => db.fanworkTags.contains (fw.id, t))

def applyStrFilter (f : Option (List String)) (proj : Fanwork → String)
    (l : List Fanwork) : List Fanwork :=
  match f with
  | none => l
  | some vs => if vs.isEmpty then l else l.filter (fun fw => vs.contains (proj fw))

/-- Substring test: does the needle occur anywhere in the haystack? -/
def hasSubstr (needle : List Char) : List Char → Bool
  | [] => needle.isEmpty
  | c :: cs => needle.isPrefixOf (c :: cs) || hasSubstr needle cs

def applySearchFilter (f : Option String) (l : List Fanwork) : List Fanwork :=
  match f with
  | none => l
  | some s => l.filter (fun fw => hasSubstr s.toList fw.title.toList)

def applyAuthorFilter (f : Option String) (l : List Fanwork) : List Fanwork :=
  match f with
  | none => l
  | some a => l.filter (fun fw => toString fw.authorId == a)

def applyOffsetLimit (offset limit : Option Int) (l : List Fanwork) : List Fanwork :=
  let l := match offset with
    | some o => l.drop o.toNat
    | none => l
  match limit with
  | some n => l.take n.toNat
  | none => l

/-- Modelled from the spec: `storage.getFanworks` of the persistence facade
(not in the available tree) — visible fanworks, filtered by the optional
type/rating/tag/search/author filters, then paged; an absent or empty tag
set applies no tag filter. -/
def getFanworks (db : DB) (f : FanworkFilters) : List Fanwork :=
  let l := db.fanworks.filter (fun fw => !fw.hidden)
  let l := applyStrFilter f.type (fun fw => fw.type) l
  let l := applyStrFilter f.rating (fun fw => fw.rating) l
  let l := match f.tags with
    | none => l
    | some ts => if ts.isEmpty then l else l.filter (matchesTagFilter db ts)
  let l := applySearchFilter f.search l
  let l := applyAuthorFilter f.authorId l
  applyOffsetLimit f.offset f.limit l

/-- The same catalog query with the tag-filter stage removed altogether,
for comparison with `getFanworks` on requests that carry no tag filter. -/
def getFanworksNoTagStage (db : DB) (f : FanworkFilters) : List Fanwork :=
  let l := db.fanworks.filter (fun fw => !fw.hidden)
  let l := applyStrFilter f.type (fun fw => fw.type) l
  let l := applyStrFilter f.rating (fun fw => fw.rating) l
  let l := applySearchFilter f.search l
  let l := applyAuthorFilter f.authorId l
  applyOffsetLimit f.offset f.limit l

/-! ## Route handlers (routes.ts) -/

inductive RespBody where
  | message (m : String)
  | validationErr (m : String) (errors : List String)
  | authOk (id : Nat) (email username token : String)
  | likeOk (isLiked : Bool)
  | bookmarkOk (isBookmarked : Bool)
  | fanworkOk (fw : Fanwork)
  | fanworkList (l : List Fanwork)
  | commentOk (c : Comment)
  | reportOk (r : Report)
  | noContent
  deriving Repr, DecidableEq

structure Resp where
  status : Nat
  body : RespBody
  deriving Repr, DecidableEq

/-- POST /api/auth/register (routes.ts lines 70-107): validate, reject a
taken email then a taken username with 400, otherwise hash, create and
answer 200 with the public user fields and a token. -/
def registerHandler (db : DB) (b : RegisterBody) : Resp × DB :=
  match registerParse b with
  | .error errs => ({ status := 400, body := .validationErr "Validation error" errs }, db)
  | .ok d =>
    match getUserByEmail db d.email with
    | some _ => ({ status := 400, body := .message "Email already registered" }, db)
    | none =>
      match getUserByUsername db d.username with
      | some _ => ({ status := 400, body := .message "Username already taken" }, db)
      | none =>
        let (u, dbNext) := createUser db
          { email := d.email, username := d.username
            passwordHash := hashPassword d.password
            firstName := d.firstName, lastName := d.lastName }
        ({ status := 200
           body := .authOk u.id u.email u.username (generateToken u.id) }, dbNext)

/-- POST /api/auth/login (routes.ts lines 109-135): validate, answer 401
"Invalid credentials" when the user is missing or banned or the password
does not compare, otherwise 200 with the public user fields and a token. -/
def loginHandler (db : DB) (b : LoginBody) : Resp × DB :=
  match loginParse b with
  | .error errs => ({ status := 400, body := .validationErr "Validation error" errs }, db)
  | .ok d =>
    match getUserByEmail db d.email with
    | none => ({ status := 401, body := .message "Invalid credentials" }, db)
    | some u =>
      if u.isBanned then ({ status := 401, body := .message "Invalid credentials" }, db)
      else if comparePassword d.password u.passwordHash then
        ({ status := 200
           body := .authOk u.id u.email u.username (generateToken u.id) }, db)
      else ({ status := 401, body := .message "Invalid credentials" }, db)

/-- GET /api/fanworks (routes.ts lines 159-177): build the filter record
from the query string and answer 200 with the catalog query result. -/
def fanworksListHandler (db : DB) (q : FanworksQuery) : Resp × DB :=
  ({ status := 200, body := .fanworkList (getFanworks db (parseFanworksFilters q)) }, db)

/-- POST /api/fanworks (routes.ts lines 195-219): validate the body merged
with the authenticated author id and the uploaded file path; create the
fanwork; when a truthy tags value was supplied, attach the tags as a second
persistence step.  `tagWriteFails` models the tag-attachment step throwing:
the handler then answers 500 from its catch block, with the already-created
fanwork left in place. -/
def createFanworkHandler (db : DB) (u : AuthUser) (b : FanworkBody)
    (file : Option String) (tagWriteFails : Bool) : Resp × DB :=
  match fanworkParse b with
  | .error errs => ({ status := 400, body := .validationErr "Validation error" errs }, db)
  | .ok d =>
    let (fw, db1) := createFanwork db
      { title := d.title, description := d.description, type := d.type
        rating := d.rating, authorId := u.id, content := d.content
        contentUrl := file, ao3WorkId := none, ao3Url := none }
    match b.tags with
    | none => ({ status := 201, body := .fanworkOk fw }, db1)
    | some v =>
      if strOrArrTruthy v then
        if tagWriteFails then
          ({ status := 500, body := .message "Failed to create fanwork" }, db1)
        else
          ({ status := 201, body := .fanworkOk fw }, addTagsToFanwork db1 fw.id (toStringList v))
      else ({ status := 201, body := .fanworkOk fw }, db1)

/-- The row the creation step of POST /api/fanworks inserts: the validated
body fields plus the authenticated author id and the uploaded file path. -/
def newFanworkOf (u : AuthUser) (b : FanworkBody) (file : Option String) : NewFanwork :=
  { title := (fanworkData b).title, description := (fanworkData b).description
    type := (fanworkData b).type, rating := (fanworkData b).rating
    authorId := u.id, content := (fanworkData b).content
    contentUrl := file, ao3WorkId := none, ao3Url := none }

/-- `ao3Url.match(/\/works\/(\d+)/)`: first position where `/works/` is
followed by at least one digit; the captured group is the maximal digit
run. -/
def findWorksId : List Char → Option (List Char)
  | [] => none
  | c :: cs =>
    if ("/works/".toList).isPrefixOf (c :: cs) then
      let ds := ((c :: cs).drop 7).takeWhile Char.isDigit
      if ds.isEmpty then findWorksId cs else some ds
    else findWorksId cs

/-- JavaScript `a || b` on strings: the empty string falls through. -/
def jsOrStr (o : Option String) (dflt : String) : String :=
  match o with
  | none => dflt
  | some s => if s ≠ "" then s else dflt

/-- POST /api/fanworks/import/ao3 (routes.ts lines 222-256). -/
def ao3ImportHandler (db : DB) (u : AuthUser) (b : Ao3Body) : Resp × DB :=
  match ao3Parse b with
  | .error errs => ({ status := 400, body := .validationErr "Validation error" errs }, db)
  | .ok d =>
    match findWorksId d.ao3Url.toList with
    | none => ({ status := 400, body := .message "Invalid AO3 URL format" }, db)
    | some ds =>
      let workId := String.mk ds
      let (fw, dbNext) := createFanwork db
        { title := jsOrStr d.title ("Imported from AO3 Work " ++ workId)
          description := jsOrStr d.description "Imported from Archive of Our Own"
          type := "fanfiction", rating := "teen", authorId := u.id
          ao3WorkId := some workId, ao3Url := some d.ao3Url
          content := some ("This work was imported from Archive of Our Own: "
            ++ d.ao3Url ++ "\n\nPlease visit the original link for the full content.")
          contentUrl := none }
      ({ status := 201, body := .fanworkOk fw }, dbNext)

/-- POST /api/fanworks/:id/like (routes.ts lines 259-268). -/
def likeHandler (db : DB) (u : AuthUser) (fanworkId : Nat) : Resp × DB :=
  let r := toggleLike db u.id fanworkId
  ({ status := 200, body := .likeOk r.1 }, r.2)

/-- POST /api/fanworks/:id/bookmark (routes.ts lines 271-280). -/
def bookmarkHandler (db : DB) (u : AuthUser) (fanworkId : Nat) : Resp × DB :=
  let r := toggleBookmark db u.id fanworkId
  ({ status := 200, body := .bookmarkOk r.1 }, r.2)

/-- POST /api/fanworks/:id/comments (routes.ts lines 306-324). -/
def commentCreateHandler (db : DB) (u : AuthUser) (fanworkId : Nat)
    (b : CommentBody) : Resp × DB :=
  match commentParse b with
  | .error errs => ({ status := 400, body := .validationErr "Validation error" errs }, db)
  | .ok content =>
    let (c, dbNext) := createComment db
      { fanworkId := fanworkId, userId := u.id, content := content }
    ({ status := 201, body := .commentOk c }, dbNext)

/-- POST /api/reports (routes.ts lines 327-343). -/
def reportCreateHandler (db : DB) (u : AuthUser) (b : ReportBody) : Resp × DB :=
  match reportParse b with
  | .error errs => ({ status := 400, body := .validationErr "Validation error" errs }, db)
  | .ok d =>
    let (r, dbNext) := createReport db
      { reporterId := u.id, targetType := d.targetType
        targetId := d.targetId, reason := d.reason }
    ({ status := 201, body := .reportOk r }, dbNext)

/-- A route guarded by `requireModerator` (the /api/admin/* routes of
routes.ts lines 346-444): the wrapped handler only runs when the middleware
admits the credential. -/
def runModeratorRoute (cred : Option AuthUser)
    (handler : AuthUser → DB → Resp × DB) (db : DB) : Resp × DB :=
  match requireModerator cred with
  | .unauthorized => ({ status := 401, body := .message "Unauthorized" }, db)
  | .forbidden => ({ status := 403, body := .message "Forbidden" }, db)
  | .ok u => handler u db

/-! ## Top-level error middleware (server/index.production.ts lines 78-84) -/

/-- The fields the middleware reads off a thrown JavaScript error value. -/
structure JsError where
  status : Option Nat
  statusCode : Option Nat
  message : Option String
  stack : Option String
  deriving Repr, DecidableEq

/-- JavaScript `a || b` on numbers: 0 falls through. -/
def jsOrNat (o : Option Nat) (dflt : Nat) : Nat :=
  match o with
  | none => dflt
  | some n => if n ≠ 0 then n else dflt

structure ErrResp where
  status : Nat
  message : String
  deriving Repr, DecidableEq

/-- The error handling middleware: status is
`err.status || err.statusCode || 500` and the response body message is
`err.message || "Internal Server Error"`. -/
def errorMiddleware (err : JsError) : ErrResp :=
  { status := jsOrNat err.status (jsOrNat err.statusCode 500)
    message := jsOrStr err.message "Internal Server Error" }

/-- The `console.error` line the middleware emits, including the stack. -/
def errorMiddlewareLog (err : JsError) : String :=
  "[ERROR] " ++ toString (errorMiddleware err).status ++ ": "
    ++ (errorMiddleware err).message ++ " " ++ (err.stack).getD ""

/-! ## Sample data for concrete instances -/

def dbEmpty : DB :=
  { users := [], fanworks := [], comments := [], reports := []
    fanworkTags := [], likes := [], bookmarks := [], nextId := 1 }

def sampleRegisterBody : RegisterBody :=
  { email := some "a@b.com", username := some "abc", password := some "secret1"
    firstName := none, lastName := none }

def sampleUser : User :=
  { id := 1, email := "a@b.com", username := "abc", passwordHash := "hashed:secret1"
    firstName := none, lastName := none, role := .user, isBanned := false
    ageVerified := false }

def dbWithUser : DB :=
  { dbEmpty with users := [sampleUser], nextId := 2 }

def sampleBannedUser : User :=
  { sampleUser with isBanned := true }

def dbWithBanned : DB :=
  { dbEmpty with users := [sampleBannedUser], nextId := 2 }

def sampleFanwork : Fanwork :=
  { id := 2, authorId := 1, title := "Work", description := none
    type := "artwork", rating := "teen", content := none, contentUrl := none
    ao3WorkId := none, ao3Url := none, hidden := false }

def dbWithFanwork : DB :=
  { dbWithUser with fanworks := [sampleFanwork], nextId := 3 }

/-! ## Helper lemmas on the string primitives -/

theorem splitOnChar_ne_nil (sep : Char) (l : List Char) : splitOnChar sep l ≠ [] := by
  cases l with
  | nil => simp [splitOnChar]
  | cons c cs =>
    simp only [splitOnChar]
    cases h : splitOnChar sep cs with
    | nil => simp
    | cons l ls =>
      by_cases hc : c = sep <;> simp [hc]

/-- The first segment of a split is the longest prefix free of the separator. -/
theorem splitOnChar_head (sep : Char) (l : List Char) :
    (splitOnChar sep l).headD [] = l.takeWhile (fun c => c ≠ sep) := by
  induction l with
  | nil => simp [splitOnChar]
  | cons c cs ih =>
    simp only [splitOnChar]
    cases h : splitOnChar sep cs with
    | nil => exact absurd h (splitOnChar_ne_nil sep cs)
    | cons l ls =>
      by_cases hc : c = sep
      · simp [hc, List.takeWhile]
      · simp only [if_neg hc, List.headD_cons, List.takeWhile]
        rw [h] at ih
        simp only [List.headD_cons] at ih
        simp [hc, ih]

/-- Splitting a string that starts with a separator-free line `t` followed by
the separator: `t` is the first segment and the rest splits on its own. -/
theorem splitOnChar_append (sep : Char) (t b : List Char)
    (ht : sep ∉ t) : splitOnChar sep (t ++ sep :: b) = t :: splitOnChar sep b := by
  induction t with
  | nil =>
    simp only [List.nil_append, splitOnChar]
    cases h : splitOnChar sep b with
    | nil => exact absurd h (splitOnChar_ne_nil sep b)
    | cons l ls => simp
  | cons c cs ih =>
    have hc : c ≠ sep := fun h => ht (h ▸ List.mem_cons_self c cs)
    have hcs : sep ∉ cs := fun h => ht (List.mem_cons_of_mem c h)
    simp only [List.cons_append, splitOnChar, List.append_eq]
    rw [ih hcs]
    simp [hc]

theorem joinChar_cons (sep : Char) (l : List Char) (ls : List (List Char))
    (h : ls ≠ []) : joinChar sep (l :: ls) = l ++ sep :: joinChar sep ls := by
  cases ls with
  | nil => exact absurd rfl h
  | cons m ms => rfl

/-- A separator-free string splits into a single segment. -/
theorem splitOnChar_no_sep (sep : Char) (l : List Char) (h : sep ∉ l) :
    splitOnChar sep l = [l] := by
  induction l with
  | nil => rfl
  | cons c cs ih =>
    have hc : c ≠ sep := fun hcc => h (hcc ▸ List.mem_cons_self c cs)
    have hcs : sep ∉ cs := fun hm => h (List.mem_cons_of_mem c hm)
    simp only [splitOnChar, ih hcs]
    simp [hc]

/-- Joining undoes splitting. -/
theorem joinChar_splitOnChar (sep : Char) (l : List Char) :
    joinChar sep (splitOnChar sep l) = l := by
  induction l with
  | nil => rfl
  | cons c cs ih =>
    simp only [splitOnChar]
    cases h : splitOnChar sep cs with
    | nil => exact absurd h (splitOnChar_ne_nil sep cs)
    | cons m ms =>
      rw [h] at ih
      by_cases hc : c = sep
      · simp only [if_pos hc]
        rw [joinChar_cons sep [] (m :: ms) (by simp), List.nil_append, ih, hc]
      · simp only [if_neg hc]
        cases ms with
        | nil =>
          simp only [joinChar] at ih ⊢
          rw [ih]
        | cons n ns =>
          rw [joinChar_cons sep (c :: m) (n :: ns) (by simp), List.cons_append]
          rw [joinChar_cons sep m (n :: ns) (by simp)] at ih
          rw [ih]

/-- The head of a `dropWhile` residue falsifies the predicate. -/
theorem dropWhile_cons_false (p : Char → Bool) (l : List Char) (c : Char)
    (b : List Char) (h : l.dropWhile p = c :: b) : p c = false := by
  induction l with
  | nil => simp [List.dropWhile] at h
  | cons x xs ih =>
    rw [List.dropWhile_cons] at h
    by_cases hx : p x
    · rw [if_pos hx] at h
      exact ih h
    · rw [if_neg hx] at h
      cases h
      simpa using hx

/-- Joining the segments after the first gives everything past the first
separator (or the empty string when there is none). -/
theorem splitOnChar_tail_join (sep : Char) (l : List Char) :
    joinChar sep (splitOnChar sep l).tail
      = l.drop ((l.takeWhile (fun c => c ≠ sep)).length + 1) := by
  have hsplit := (List.takeWhile_append_dropWhile
    (p := fun c => decide (c ≠ sep)) (l := l)).symm
  set tw := l.takeWhile (fun c => decide (c ≠ sep)) with htwdef
  have htw : sep ∉ tw := by
    intro hmem
    have := List.mem_takeWhile_imp hmem
    simp at this
  cases hd : l.dropWhile (fun c => decide (c ≠ sep)) with
  | nil =>
    have hl : l = tw := by
      conv_lhs => rw [hsplit]
      rw [hd, List.append_nil]
    rw [hl, splitOnChar_no_sep sep tw htw]
    simp only [List.tail_cons, joinChar]
    rw [eq_comm]
    exact List.drop_eq_nil_of_le (Nat.le_succ _)
  | cons c b =>
    have hc : c = sep := by
      have := dropWhile_cons_false _ _ _ _ hd
      simpa using this
    rw [hc] at hd
    have hl : l = tw ++ sep :: b := by
      conv_lhs => rw [hsplit]
      rw [hd]
    rw [hl, splitOnChar_append sep tw b htw, List.tail_cons, joinChar_splitOnChar]
    have hre : tw ++ sep :: b = (tw ++ [sep]) ++ b := by simp
    have hlen : tw.length + 1 = (tw ++ [sep]).length := by simp
    rw [hre, hlen, List.drop_left]

/-! ## The manual-paste heuristic, branch by branch -/

/-- When the first line is non-empty, short and period-free, it becomes the
trimmed title and everything after the first newline the trimmed content. -/
theorem parseManualContent_title_branch (text : List Char)
    (h1 : text.takeWhile (fun c => c ≠ '\n') ≠ [])
    (h2 : (text.takeWhile (fun c => c ≠ '\n')).length < 200)
    (h3 : '.' ∉ text.takeWhile (fun c => c ≠ '\n')) :
    parseManualContent text =
      { title := trimChars (text.takeWhile (fun c => c ≠ '\n'))
        content := trimChars (text.drop ((text.takeWhile (fun c => c ≠ '\n')).length + 1))
        description := []
        tags := [] } := by
  simp only [parseManualContent, splitOnChar_head, splitOnChar_tail_join]
  rw [if_pos ⟨h1, h2, h3⟩]

/-- When the first line fails the title test the text is passed through. -/
theorem parseManualContent_else_branch (text : List Char)
    (h : ¬(text.takeWhile (fun c => c ≠ '\n') ≠ []
        ∧ (text.takeWhile (fun c => c ≠ '\n')).length < 200
        ∧ '.' ∉ text.takeWhile (fun c => c ≠ '\n'))) :
    parseManualContent text = { title := [], content := text, description := [], tags := [] } := by
  simp only [parseManualContent, splitOnChar_head, splitOnChar_tail_join]
  rw [if_neg h]

theorem isPrefixOf_append_left (p z : List Char) : p.isPrefixOf (p ++ z) = true := by
  simp [List.isPrefixOf_iff_prefix]

/-- Characterization of the host stage of the URL test. -/
theorem validateAO3Host_iff (z : List Char) :
    validateAO3Host z = true ↔
      ∃ www d rest,
        (www = [] ∨ www = "www.".toList)
        ∧ d.isDigit = true
        ∧ z = www ++ ("archiveofourown.org/works/".toList ++ d :: rest) := by
  constructor
  · intro h
    simp only [validateAO3Host] at h
    by_cases hw : ("www.".toList).isPrefixOf z = true
    · obtain ⟨y, hy⟩ := List.isPrefixOf_iff_prefix.mp hw
      have hdy : z.drop 4 = y := by
        rw [← hy, show (4:Nat) = ("www.".toList).length from rfl, List.drop_left]
      rw [if_pos hw, hdy] at h
      by_cases ha : ("archiveofourown.org/works/".toList).isPrefixOf y = true
      · obtain ⟨w, hwk⟩ := List.isPrefixOf_iff_prefix.mp ha
        have hdw : y.drop 26 = w := by
          rw [← hwk, show (26:Nat) = ("archiveofourown.org/works/".toList).length from rfl,
            List.drop_left]
        rw [if_pos ha, hdw] at h
        cases w with
        | nil => simp at h
        | cons d rest =>
          exact ⟨"www.".toList, d, rest, Or.inr rfl, h, by rw [← hy, ← hwk]⟩
      · rw [if_neg ha] at h
        simp at h
    · rw [if_neg hw] at h
      by_cases ha : ("archiveofourown.org/works/".toList).isPrefixOf z = true
      · obtain ⟨w, hwk⟩ := List.isPrefixOf_iff_prefix.mp ha
        have hdw : z.drop 26 = w := by
          rw [← hwk, show (26:Nat) = ("archiveofourown.org/works/".toList).length from rfl,
            List.drop_left]
        rw [if_pos ha, hdw] at h
        cases w with
        | nil => simp at h
        | cons d rest =>
          exact ⟨[], d, rest, Or.inl rfl, h, by rw [List.nil_append, ← hwk]⟩
      · rw [if_neg ha] at h
        simp at h
  · rintro ⟨www, d, rest, hw, hd, hz⟩
    subst hz
    simp only [validateAO3Host]
    rcases hw with hw | hw <;> subst hw
    · simp only [List.nil_append]
      have hnw : ¬ (("www.".toList).isPrefixOf
          ("archiveofourown.org/works/".toList ++ d :: rest) = true) := by
        intro hcon
        have h2 : ("www.".toList).isPrefixOf
            ('a' :: 'r' :: 'c' :: 'h' :: ("iveofourown.org/works/".toList ++ d :: rest)) = true := hcon
        simp [List.isPrefixOf] at h2
      rw [if_neg hnw]
      rw [if_pos (isPrefixOf_append_left _ _)]
      rw [show ("archiveofourown.org/works/".toList ++ d :: rest).drop 26 = d :: rest by
        rw [show (26:Nat) = ("archiveofourown.org/works/".toList).length from rfl,
          List.drop_left]]
      exact hd
    · rw [if_pos (isPrefixOf_append_left _ _)]
      rw [show ("www.".toList ++ ("archiveofourown.org/works/".toList ++ d :: rest)).drop 4
          = "archiveofourown.org/works/".toList ++ d :: rest by
        rw [show (4:Nat) = ("www.".toList).length from rfl, List.drop_left]]
      rw [if_pos (isPrefixOf_append_left _ _)]
      rw [show ("archiveofourown.org/works/".toList ++ d :: rest).drop 26 = d :: rest by
        rw [show (26:Nat) = ("archiveofourown.org/works/".toList).length from rfl, List.drop_left]]
      exact hd

/-- Characterization of the AO3 URL validator: exactly the strings of the
shape `http(s)://(www.)?archiveofourown.org/works/<digit>...`. -/
theorem validateAO3Url_iff (url : List Char) :
    validateAO3Url url = true ↔
      ∃ scheme www d rest,
        (scheme = "http://".toList ∨ scheme = "https://".toList)
        ∧ (www = [] ∨ www = "www.".toList)
        ∧ d.isDigit = true
        ∧ url = scheme ++ (www ++ ("archiveofourown.org/works/".toList ++ d :: rest)) := by
  constructor
  · intro h
    simp only [validateAO3Url] at h
    by_cases h8 : ("https://".toList).isPrefixOf url = true
    · obtain ⟨z, hz⟩ := List.isPrefixOf_iff_prefix.mp h8
      have hdz : url.drop 8 = z := by
        rw [← hz, show (8:Nat) = ("https://".toList).length from rfl, List.drop_left]
      rw [if_pos h8, hdz] at h
      obtain ⟨www, d, rest, hw, hd, hzz⟩ := (validateAO3Host_iff z).mp h
      exact ⟨"https://".toList, www, d, rest, Or.inr rfl, hw, hd, by rw [← hz, hzz]⟩
    · by_cases h7 : ("http://".toList).isPrefixOf url = true
      · obtain ⟨z, hz⟩ := List.isPrefixOf_iff_prefix.mp h7
        have hdz : url.drop 7 = z := by
          rw [← hz, show (7:Nat) = ("http://".toList).length from rfl, List.drop_left]
        rw [if_neg h8, if_pos h7, hdz] at h
        obtain ⟨www, d, rest, hw, hd, hzz⟩ := (validateAO3Host_iff z).mp h
        exact ⟨"http://".toList, www, d, rest, Or.inl rfl, hw, hd, by rw [← hz, hzz]⟩
      · rw [if_neg h8, if_neg h7] at h
        simp at h
  · rintro ⟨scheme, www, d, rest, hs, hw, hd, hurl⟩
    subst hurl
    simp only [validateAO3Url]
    rcases hs with hs | hs <;> subst hs
    · rw [if_neg (by
        show ("https://".toList).isPrefixOf
          ('h' :: 't' :: 't' :: 'p' :: ':' :: '/' :: '/' :: (www ++ ("archiveofourown.org/works/".toList ++ d :: rest))) = true → False
        simp [List.isPrefixOf])]
      rw [if_pos (isPrefixOf_append_left _ _)]
      rw [show ("http://".toList ++ (www ++ ("archiveofourown.org/works/".toList ++ d :: rest))).drop 7
          = www ++ ("archiveofourown.org/works/".toList ++ d :: rest) by
        rw [show (7:Nat) = ("http://".toList).length from rfl, List.drop_left]]
      exact (validateAO3Host_iff _).mpr ⟨www, d, rest, hw, hd, rfl⟩
    · rw [if_pos (isPrefixOf_append_left _ _)]
      rw [show ("https://".toList ++ (www ++ ("archiveofourown.org/works/".toList ++ d :: rest))).drop 8
          = www ++ ("archiveofourown.org/works/".toList ++ d :: rest) by
        rw [show (8:Nat) = ("https://".toList).length from rfl, List.drop_left]]
      exact (validateAO3Host_iff _).mpr ⟨www, d, rest, hw, hd, rfl⟩

/-- Claim C9: for every pasted text, when the first line is non-empty,
shorter than 200 characters and period-free, the heuristic returns it
(trimmed) as the title with the remaining lines joined and trimmed as the
content; otherwise the title is empty and the whole text is the content.
A URL is accepted by the AO3 URL validator exactly when it is an
`http(s)://(www.)?archiveofourown.org/works/<digits>` URL. -/
theorem claim_C9 (text url : List Char) :
    (text.takeWhile (fun c => c ≠ '\n') ≠ [] →
      (text.takeWhile (fun c => c ≠ '\n')).length < 200 →
      '.' ∉ text.takeWhile (fun c => c ≠ '\n') →
      parseManualContent text =
        { title := trimChars (text.takeWhile (fun c => c ≠ '\n'))
          content := trimChars (text.drop ((text.takeWhile (fun c => c ≠ '\n')).length + 1))
          description := [], tags := [] })
    ∧ (¬(text.takeWhile (fun c => c ≠ '\n') ≠ []
          ∧ (text.takeWhile (fun c => c ≠ '\n')).length < 200
          ∧ '.' ∉ text.takeWhile (fun c => c ≠ '\n')) →
      parseManualContent text = { title := [], content := text, description := [], tags := [] })
    ∧ (validateAO3Url url = true ↔
      ∃ scheme www d rest,
        (scheme = "http://".toList ∨ scheme = "https://".toList)
        ∧ (www = [] ∨ www = "www.".toList)
        ∧ d.isDigit = true
        ∧ url = scheme ++ (www ++ ("archiveofourown.org/works/".toList ++ d :: rest))) :=
  ⟨fun h1 h2 h3 => parseManualContent_title_branch text h1 h2 h3,
   fun h => parseManualContent_else_branch text h,
   validateAO3Url_iff url⟩

/-- Concrete instance of claim C9: a pasted text with a short period-free
first line, one whose first line carries a period, and an accepted URL. -/
theorem claim_C9_witness :
    parseManualContent "My Title\nBody text here.".toList
        = { title := "My Title".toList, content := "Body text here.".toList
            description := [], tags := [] }
      ∧ parseManualContent "First line. with period\nrest".toList
        = { title := [], content := "First line. with period\nrest".toList
            description := [], tags := [] }
      ∧ validateAO3Url "https://archiveofourown.org/works/12345".toList = true := by
  refine ⟨?_, ?_, ?_⟩
  · have h := (claim_C9 "My Title\nBody text here.".toList []).1
      (by decide) (by decide) (by decide)
    rw [h]
    decide
  · exact (claim_C9 "First line. with period\nrest".toList []).2.1 (by decide)
  · exact (claim_C9 [] "https://archiveofourown.org/works/12345".toList).2.2.mpr
      ⟨"https://".toList, [], '1', "2345".toList, Or.inr rfl, Or.inl rfl, by decide, by decide⟩

/-- Claim C1: on a schema-valid registration payload, a taken email yields
400 "Email already registered" without touching the database, a fresh email
with a taken username yields 400 "Username already taken" without touching
the database, and otherwise exactly one user with the given email and
username is created and the response is 200 with its id, email, username
and a token. -/
theorem claim_C1 (db : DB) (b : RegisterBody) (hv : registerErrors b = []) :
    ((getUserByEmail db (registerData b).email).isSome = true →
      registerHandler db b
        = ({ status := 400, body := .message "Email already registered" }, db))
    ∧ (getUserByEmail db (registerData b).email = none →
       (getUserByUsername db (registerData b).username).isSome = true →
      registerHandler db b
        = ({ status := 400, body := .message "Username already taken" }, db))
    ∧ (getUserByEmail db (registerData b).email = none →
       getUserByUsername db (registerData b).username = none →
      ∃ u : User,
        registerHandler db b
          = ({ status := 200, body := .authOk u.id u.email u.username (generateToken u.id) },
             { db with users := db.users ++ [u], nextId := db.nextId + 1 })
        ∧ u.email = (registerData b).email ∧ u.username = (registerData b).username) := by
  refine ⟨?_, ?_, ?_⟩
  · intro he
    obtain ⟨u, hu⟩ := Option.isSome_iff_exists.mp he
    simp only [registerHandler, registerParse, if_pos hv, hu]
  · intro he hn
    obtain ⟨u, hu⟩ := Option.isSome_iff_exists.mp hn
    simp only [registerHandler, registerParse, if_pos hv, he, hu]
  · intro he hn
    refine ⟨{ id := db.nextId, email := (registerData b).email
              username := (registerData b).username
              passwordHash := hashPassword (registerData b).password
              firstName := (registerData b).firstName
              lastName := (registerData b).lastName
              role := .user, isBanned := false, ageVerified := false }, ?_, rfl, rfl⟩
    simp only [registerHandler, registerParse, if_pos hv, he, hn, createUser]

/-- Concrete instance of claim C1: registering `a@b.com`/`abc` on an empty
database succeeds with a credential; repeating it conflicts on the email. -/
theorem claim_C1_witness :
    registerHandler dbWithUser sampleRegisterBody
        = ({ status := 400, body := .message "Email already registered" }, dbWithUser)
      ∧ registerHandler dbEmpty sampleRegisterBody
        = ({ status := 200, body := .authOk 1 "a@b.com" "abc" "token:1" },
           { dbEmpty with users := [sampleUser], nextId := 2 }) := by
  refine ⟨?_, ?_⟩
  · exact (claim_C1 dbWithUser sampleRegisterBody (by decide)).1 (by decide)
  · obtain ⟨u, hu, -, -⟩ :=
      (claim_C1 dbEmpty sampleRegisterBody (by decide)).2.2 (by decide) (by decide)
    decide

/-- Claim C2: on a schema-valid login payload, a missing user, a banned
user, or a failing password comparison each yield 401 "Invalid credentials"
with the database untouched; and any response carrying a token comes from an
existing, not-banned user. -/
theorem claim_C2 (db : DB) (b : LoginBody) (hv : loginErrors b = []) :
    (getUserByEmail db (loginData b).email = none →
      loginHandler db b = ({ status := 401, body := .message "Invalid credentials" }, db))
    ∧ (∀ u, getUserByEmail db (loginData b).email = some u →
        (u.isBanned = true ∨ comparePassword (loginData b).password u.passwordHash = false) →
        loginHandler db b = ({ status := 401, body := .message "Invalid credentials" }, db))
    ∧ (∀ st i e un tok, loginHandler db b = ({ status := st, body := .authOk i e un tok }, db) →
        ∃ u, getUserByEmail db (loginData b).email = some u
          ∧ u.isBanned = false ∧ tok = generateToken u.id) := by
  refine ⟨?_, ?_, ?_⟩
  · intro he
    simp only [loginHandler, loginParse, if_pos hv, he]
  · intro u hu hcase
    by_cases hb : u.isBanned = true
    · simp only [loginHandler, loginParse, if_pos hv, hu, hb, if_true]
    · have hbf : u.isBanned = false := by
        revert hb
        cases u.isBanned <;> simp
      have hc : comparePassword (loginData b).password u.passwordHash = false :=
        hcase.resolve_left hb
      simp only [loginHandler, loginParse, if_pos hv, hu, hbf, hc,
        Bool.false_eq_true, if_false]
  · intro st i e un tok heq
    cases hu : getUserByEmail db (loginData b).email with
    | none =>
      simp only [loginHandler, loginParse, if_pos hv, hu] at heq
      simp at heq
    | some u =>
      by_cases hb : u.isBanned = true
      · simp only [loginHandler, loginParse, if_pos hv, hu, hb, if_true] at heq
        simp at heq
      · have hbf : u.isBanned = false := by
          revert hb
          cases u.isBanned <;> simp
        by_cases hcp : comparePassword (loginData b).password u.passwordHash = true
        · simp only [loginHandler, loginParse, if_pos hv, hu, hbf, hcp,
            Bool.false_eq_true, if_false, if_true] at heq
          simp only [Prod.mk.injEq, Resp.mk.injEq, RespBody.authOk.injEq] at heq
          exact ⟨u, rfl, hbf, heq.1.2.2.2.2.symm⟩
        · have hcf : comparePassword (loginData b).password u.passwordHash = false := by
            revert hcp
            cases comparePassword (loginData b).password u.passwordHash <;> simp
          simp only [loginHandler, loginParse, if_pos hv, hu, hbf, hcf,
            Bool.false_eq_true, if_false] at heq
          simp at heq

/-- Concrete instance of claim C2: a banned user and a wrong password both
yield 401 "Invalid credentials". -/
theorem claim_C2_witness :
    loginHandler dbWithBanned { email := some "a@b.com", password := some "secret1" }
        = ({ status := 401, body := .message "Invalid credentials" }, dbWithBanned)
      ∧ loginHandler dbWithUser { email := some "a@b.com", password := some "wrong" }
        = ({ status := 401, body := .message "Invalid credentials" }, dbWithUser) := by
  refine ⟨?_, ?_⟩
  · exact (claim_C2 dbWithBanned { email := some "a@b.com", password := some "secret1" }
      (by decide)).2.1 sampleBannedUser (by decide) (Or.inl (by decide))
  · exact (claim_C2 dbWithUser { email := some "a@b.com", password := some "wrong" }
      (by decide)).2.1 sampleUser (by decide) (Or.inr (by decide))

/-! ## Toggle algebra -/

theorem filter_ne_eq_self (l : List (Nat × Nat)) (a : Nat × Nat) (h : a ∉ l) :
    l.filter (fun p => p ≠ a) = l := by
  apply List.filter_eq_self.mpr
  intro b hb
  simp only [decide_eq_true_eq]
  exact fun he => h (he ▸ hb)

theorem toggleLike_mem_restore (db : DB) (uid f : Nat) (q : Nat × Nat) :
    q ∈ (toggleLike (toggleLike db uid f).2 uid f).2.likes ↔ q ∈ db.likes := by
  by_cases hm : (uid, f) ∈ db.likes
  · have hc : db.likes.contains (uid, f) = true := by simp [hm]
    have hc2 : (db.likes.filter (fun p => p ≠ (uid, f))).contains (uid, f) = false := by
      simp [List.mem_filter]
    simp only [toggleLike, hc, if_true, hc2, Bool.false_eq_true, if_false]
    by_cases hq : q = (uid, f)
    · subst hq
      simp [hm]
    · simp [List.mem_filter, hq]
  · have hc : db.likes.contains (uid, f) = false := by simp [hm]
    have hc2 : (((uid, f) :: db.likes).contains (uid, f)) = true := by simp
    simp only [toggleLike, hc, Bool.false_eq_true, if_false, hc2, if_true]
    rw [show ((uid, f) :: db.likes).filter (fun p => p ≠ (uid, f))
        = db.likes.filter (fun p => p ≠ (uid, f)) by simp [List.filter_cons]]
    rw [filter_ne_eq_self db.likes _ hm]

theorem toggleLike_count (db : DB) (uid f : Nat)
    (h : ∀ p : Nat × Nat, db.likes.count p ≤ 1) (p : Nat × Nat) :
    (toggleLike db uid f).2.likes.count p ≤ 1 := by
  by_cases hm : (uid, f) ∈ db.likes
  · have hc : db.likes.contains (uid, f) = true := by simp [hm]
    simp only [toggleLike, hc, if_true]
    exact le_trans ((List.filter_sublist db.likes).count_le p) (h p)
  · have hc : db.likes.contains (uid, f) = false := by simp [hm]
    simp only [toggleLike, hc, Bool.false_eq_true, if_false]
    by_cases hp : p = (uid, f)
    · subst hp
      rw [List.count_cons_self, List.count_eq_zero.mpr hm]
    · rw [List.count_cons_of_ne hp]
      exact h p

theorem toggleLike_reports (db : DB) (uid f : Nat) :
    (toggleLike db uid f).1 = (toggleLike db uid f).2.likes.contains (uid, f) := by
  by_cases hm : (uid, f) ∈ db.likes
  · have hc : db.likes.contains (uid, f) = true := by simp [hm]
    simp only [toggleLike, hc, if_true]
    simp [List.mem_filter]
  · have hc : db.likes.contains (uid, f) = false := by simp [hm]
    simp only [toggleLike, hc, Bool.false_eq_true, if_false]
    simp

theorem toggleBookmark_mem_restore (db : DB) (uid f : Nat) (q : Nat × Nat) :
    q ∈ (toggleBookmark (toggleBookmark db uid f).2 uid f).2.bookmarks ↔ q ∈ db.bookmarks := by
  by_cases hm : (uid, f) ∈ db.bookmarks
  · have hc : db.bookmarks.contains (uid, f) = true := by simp [hm]
    have hc2 : (db.bookmarks.filter (fun p => p ≠ (uid, f))).contains (uid, f) = false := by
      simp [List.mem_filter]
    simp only [toggleBookmark, hc, if_true, hc2, Bool.false_eq_true, if_false]
    by_cases hq : q = (uid, f)
    · subst hq
      simp [hm]
    · simp [List.mem_filter, hq]
  · have hc : db.bookmarks.contains (uid, f) = false := by simp [hm]
    have hc2 : (((uid, f) :: db.bookmarks).contains (uid, f)) = true := by simp
    simp only [toggleBookmark, hc, Bool.false_eq_true, if_false, hc2, if_true]
    rw [show ((uid, f) :: db.bookmarks).filter (fun p => p ≠ (uid, f))
        = db.bookmarks.filter (fun p => p ≠ (uid, f)) by simp [List.filter_cons]]
    rw [filter_ne_eq_self db.bookmarks _ hm]

theorem toggleBookmark_count (db : DB) (uid f : Nat)
    (h : ∀ p : Nat × Nat, db.bookmarks.count p ≤ 1) (p : Nat × Nat) :
    (toggleBookmark db uid f).2.bookmarks.count p ≤ 1 := by
  by_cases hm : (uid, f) ∈ db.bookmarks
  · have hc : db.bookmarks.contains (uid, f) = true := by simp [hm]
    simp only [toggleBookmark, hc, if_true]
    exact le_trans ((List.filter_sublist db.bookmarks).count_le p) (h p)
  · have hc : db.bookmarks.contains (uid, f) = false := by simp [hm]
    simp only [toggleBookmark, hc, Bool.false_eq_true, if_false]
    by_cases hp : p = (uid, f)
    · subst hp
      rw [List.count_cons_self, List.count_eq_zero.mpr hm]
    · rw [List.count_cons_of_ne hp]
      exact h p

theorem toggleBookmark_reports (db : DB) (uid f : Nat) :
    (toggleBookmark db uid f).1 = (toggleBookmark db uid f).2.bookmarks.contains (uid, f) := by
  by_cases hm : (uid, f) ∈ db.bookmarks
  · have hc : db.bookmarks.contains (uid, f) = true := by simp [hm]
    simp only [toggleBookmark, hc, if_true]
    simp [List.mem_filter]
  · have hc : db.bookmarks.contains (uid, f) = false := by simp [hm]
    simp only [toggleBookmark, hc, Bool.false_eq_true, if_false]
    simp

/-- Claim C3: toggling like (resp. bookmark) twice restores the relation's
membership for every pair; a single toggle preserves the at-most-one-row
invariant; and the handler responds 200 with the new membership state as a
boolean. -/
theorem claim_C3 (db : DB) (u : AuthUser) (f : Nat)
    (hlike : ∀ p : Nat × Nat, db.likes.count p ≤ 1)
    (hbm : ∀ p : Nat × Nat, db.bookmarks.count p ≤ 1) :
    (∀ q : Nat × Nat,
      q ∈ (likeHandler (likeHandler db u f).2 u f).2.likes ↔ q ∈ db.likes)
    ∧ (∀ q : Nat × Nat,
      q ∈ (bookmarkHandler (bookmarkHandler db u f).2 u f).2.bookmarks ↔ q ∈ db.bookmarks)
    ∧ (∀ p : Nat × Nat, (likeHandler db u f).2.likes.count p ≤ 1)
    ∧ (∀ p : Nat × Nat, (bookmarkHandler db u f).2.bookmarks.count p ≤ 1)
    ∧ (likeHandler db u f).1
        = { status := 200, body := .likeOk ((likeHandler db u f).2.likes.contains (u.id, f)) }
    ∧ (bookmarkHandler db u f).1
        = { status := 200
            body := .bookmarkOk ((bookmarkHandler db u f).2.bookmarks.contains (u.id, f)) } := by
  refine ⟨fun q => toggleLike_mem_restore db u.id f q,
    fun q => toggleBookmark_mem_restore db u.id f q,
    fun p => toggleLike_count db u.id f hlike p,
    fun p => toggleBookmark_count db u.id f hbm p, ?_, ?_⟩
  · simp only [likeHandler, Resp.mk.injEq, RespBody.likeOk.injEq, true_and]
    exact toggleLike_reports db u.id f
  · simp only [bookmarkHandler, Resp.mk.injEq, RespBody.bookmarkOk.injEq, true_and]
    exact toggleBookmark_reports db u.id f

/-- Concrete instance of claim C3: on an empty database, liking twice leaves
the pair absent, and the first like reports `isLiked = true`. -/
theorem claim_C3_witness :
    ((1, 2) ∉
      (likeHandler (likeHandler dbEmpty ⟨1, Role.user⟩ 2).2 ⟨1, Role.user⟩ 2).2.likes)
    ∧ (likeHandler dbEmpty ⟨1, Role.user⟩ 2).1
        = { status := 200, body := .likeOk true } := by
  have h := claim_C3 dbEmpty ⟨1, Role.user⟩ 2
    (fun p => by simp [dbEmpty]) (fun p => by simp [dbEmpty])
  refine ⟨fun hmem => ?_, ?_⟩
  · have := (h.1 (1, 2)).mp hmem
    simp [dbEmpty] at this
  · rw [h.2.2.2.2.1]
    decide

/-- Claim C4: a request to a `requireModerator`-guarded route with an
attached role `user` fails 403 with the database untouched (the guarded
handler is never invoked); with role `moderator` or `admin` the request is
exactly the handler's own result. -/
theorem claim_C4 (cred : Option AuthUser) (u : AuthUser) (db : DB)
    (handler : AuthUser → DB → Resp × DB) (hc : cred = some u) :
    (u.role = Role.user →
      runModeratorRoute cred handler db
        = ({ status := 403, body := .message "Forbidden" }, db))
    ∧ ((u.role = Role.moderator ∨ u.role = Role.admin) →
      runModeratorRoute cred handler db = handler u db) := by
  subst hc
  refine ⟨?_, ?_⟩
  · intro hr
    simp [runModeratorRoute, requireModerator, hr]
  · intro hr
    rcases hr with hr | hr <;> simp [runModeratorRoute, requireModerator, hr]

/-- Concrete instance of claim C4: a plain user is refused with the state
unchanged; a moderator reaches the handler. -/
theorem claim_C4_witness :
    runModeratorRoute (some ⟨1, Role.user⟩)
        (fun _ dbx => ({ status := 204, body := .noContent }, { dbx with users := [] }))
        dbWithUser
      = ({ status := 403, body := .message "Forbidden" }, dbWithUser)
    ∧ runModeratorRoute (some ⟨1, Role.moderator⟩)
        (fun _ dbx => ({ status := 204, body := .noContent }, { dbx with users := [] }))
        dbWithUser
      = ({ status := 204, body := .noContent }, { dbWithUser with users := [] }) := by
  refine ⟨?_, ?_⟩
  · exact (claim_C4 _ ⟨1, Role.user⟩ dbWithUser _ rfl).1 rfl
  · exact (claim_C4 _ ⟨1, Role.moderator⟩ dbWithUser _ rfl).2 (Or.inl rfl)

/-- Counterexample to claim C5 as stated: an unexpected error with message
"boom" and no status reaches the top-level middleware and the response body
is exactly the error's own message — not a generic message. -/
theorem claim_C5_counterexample :
    errorMiddleware { status := none, statusCode := none
                      message := some "boom", stack := some "stack" }
      = { status := 500, message := "boom" }
    ∧ "boom" ≠ "Internal Server Error" :=
  ⟨by decide, by decide⟩

/-- Claim C5 (amended): the top-level middleware answers with status
`err.status || err.statusCode || 500` — so 500 whenever the error carries no
status — and with the error's own message when one is present and non-empty,
falling back to the generic "Internal Server Error" only otherwise; the
stack never influences the response (it is only logged). -/
theorem claim_C5 (err : JsError) :
    (err.status = none → err.statusCode = none → (errorMiddleware err).status = 500)
    ∧ ((err.message = none ∨ err.message = some "") →
        (errorMiddleware err).message = "Internal Server Error")
    ∧ (∀ m, err.message = some m → m ≠ "" → (errorMiddleware err).message = m)
    ∧ (∀ s, errorMiddleware { err with stack := s } = errorMiddleware err) := by
  refine ⟨?_, ?_, ?_, ?_⟩
  · intro h1 h2
    simp [errorMiddleware, jsOrNat, h1, h2]
  · intro h
    rcases h with h | h <;> simp [errorMiddleware, jsOrStr, h]
  · intro m hm hne
    simp [errorMiddleware, jsOrStr, hm, hne]
  · intro s
    simp [errorMiddleware]

/-- Concrete instance of claim C5 (amended): an error without status or
message yields 500 with the generic body. -/
theorem claim_C5_witness :
    (errorMiddleware { status := none, statusCode := none
                       message := none, stack := some "s" }).status = 500
    ∧ (errorMiddleware { status := none, statusCode := none
                         message := none, stack := some "s" }).message
        = "Internal Server Error" :=
  ⟨(claim_C5 _).1 rfl rfl, (claim_C5 _).2.1 (Or.inl rfl)⟩

/-- Every check recorded as failing contributes its field name to the
collected error list: zod-style aggregation, not first-failure. -/
theorem mem_collectErrors (checks : List (String × Bool)) (name : String)
    (h : (name, false) ∈ checks) : name ∈ collectErrors checks := by
  induction checks with
  | nil => simp at h
  | cons c cs ih =>
    rcases List.mem_cons.mp h with h | h
    · rw [collectErrors, List.filterMap_cons, ← h]
      simp
    · have hm := ih h
      rw [collectErrors] at hm ⊢
      rw [List.filterMap_cons]
      cases hif : (if c.2 then none else some c.1) with
      | none => simpa using hm
      | some x => simp [hm]

/-- Claim C6: each schema-validated handler answers an invalid body with 400,
a "Validation error" message and the full list of violated fields, leaving
the database untouched; and every violated field of the register and login
schemas is indeed in that list. -/
theorem claim_C6 (db : DB) (b1 : RegisterBody) (b2 : LoginBody) (b3 : Ao3Body)
    (b4 : FanworkBody) (b5 : CommentBody) (b6 : ReportBody)
    (u : AuthUser) (fid : Nat) (file : Option String) (tagFail : Bool) :
    (registerErrors b1 ≠ [] →
      registerHandler db b1
        = ({ status := 400, body := .validationErr "Validation error" (registerErrors b1) }, db))
    ∧ (loginErrors b2 ≠ [] →
      loginHandler db b2
        = ({ status := 400, body := .validationErr "Validation error" (loginErrors b2) }, db))
    ∧ (ao3Errors b3 ≠ [] →
      ao3ImportHandler db u b3
        = ({ status := 400, body := .validationErr "Validation error" (ao3Errors b3) }, db))
    ∧ (fanworkErrors b4 ≠ [] →
      createFanworkHandler db u b4 file tagFail
        = ({ status := 400, body := .validationErr "Validation error" (fanworkErrors b4) }, db))
    ∧ (commentErrors b5 ≠ [] →
      commentCreateHandler db u fid b5
        = ({ status := 400, body := .validationErr "Validation error" (commentErrors b5) }, db))
    ∧ (reportErrors b6 ≠ [] →
      reportCreateHandler db u b6
        = ({ status := 400, body := .validationErr "Validation error" (reportErrors b6) }, db))
    ∧ (optCheck b1.email isEmailFormat = false → "email" ∈ registerErrors b1)
    ∧ (optCheck b1.username (fun s => 3 ≤ s.length && s.length ≤ 50) = false →
        "username" ∈ registerErrors b1)
    ∧ (optCheck b1.password (fun s => 6 ≤ s.length) = false → "password" ∈ registerErrors b1)
    ∧ (optCheck b2.email isEmailFormat = false → "email" ∈ loginErrors b2)
    ∧ (optCheck b2.password (fun _ => true) = false → "password" ∈ loginErrors b2) := by
  refine ⟨?_, ?_, ?_, ?_, ?_, ?_, ?_, ?_, ?_, ?_, ?_⟩
  · intro h
    simp only [registerHandler, registerParse, if_neg h]
  · intro h
    simp only [loginHandler, loginParse, if_neg h]
  · intro h
    simp only [ao3ImportHandler, ao3Parse, if_neg h]
  · intro h
    simp only [createFanworkHandler, fanworkParse, if_neg h]
  · intro h
    simp only [commentCreateHandler, commentParse, if_neg h]
  · intro h
    simp only [reportCreateHandler, reportParse, if_neg h]
  · intro hvf
    exact mem_collectErrors _ _ (by simp [registerChecks, hvf])
  · intro hvf
    exact mem_collectErrors _ _ (by simp [registerChecks, hvf])
  · intro hvf
    exact mem_collectErrors _ _ (by simp [registerChecks, hvf])
  · intro hvf
    exact mem_collectErrors _ _ (by simp [loginChecks, hvf])
  · intro hvf
    exact mem_collectErrors _ _ (by simp [loginChecks, hvf])

/-- Concrete instance of claim C6: a register body violating all three
checked fields is refused with all three fields listed and no state
change. -/
theorem claim_C6_witness :
    registerHandler dbEmpty
        { email := some "nope", username := some "ab", password := some "123"
          firstName := none, lastName := none }
      = ({ status := 400
           body := .validationErr "Validation error" ["email", "username", "password"] },
         dbEmpty)
    ∧ "email" ∈ registerErrors
        { email := some "nope", username := some "ab", password := some "123"
          firstName := none, lastName := none } := by
  have h := claim_C6 dbEmpty
    { email := some "nope", username := some "ab", password := some "123"
      firstName := none, lastName := none }
    { email := none, password := none } { ao3Url := none, title := none, description := none }
    { title := none, description := none, type := none, rating := none
      content := none, tags := none }
    { content := none }
    { targetType := none, targetId := none, reason := none }
    ⟨1, Role.user⟩ 1 none false
  refine ⟨?_, ?_⟩
  · have h1 := h.1 (by decide)
    rw [h1]
    decide
  · exact h.2.2.2.2.2.2.1 (by decide)

theorem applySearchFilter_nil (f : Option String) : applySearchFilter f [] = [] := by
  cases f <;> rfl

theorem applyAuthorFilter_nil (f : Option String) : applyAuthorFilter f [] = [] := by
  cases f <;> rfl

theorem applyOffsetLimit_nil (o l : Option Int) : applyOffsetLimit o l [] = [] := by
  cases o <;> cases l <;> simp [applyOffsetLimit]

/-- Claim C7: an absent (or empty-string) tags query parameter leaves the
tag filter off; an absent or empty tag filter makes the catalog query agree
with the pipeline that has no tag stage at all; a non-empty tag filter whose
tags are attached to no fanwork yields the empty list; and the handler
passes the constructed filters straight to the catalog query. -/
theorem claim_C7 (db : DB) (q : FanworksQuery) (f : FanworkFilters) (ts : List String) :
    (q.tags = none → (parseFanworksFilters q).tags = none)
    ∧ (q.tags = some (.str "") → (parseFanworksFilters q).tags = none)
    ∧ ((f.tags = none ∨ f.tags = some []) → getFanworks db f = getFanworksNoTagStage db f)
    ∧ (f.tags = some ts → ts ≠ [] →
        (∀ t ∈ ts, ∀ x : Nat, (x, t) ∉ db.fanworkTags) →
        getFanworks db f = [])
    ∧ fanworksListHandler db q
        = ({ status := 200, body := .fanworkList (getFanworks db (parseFanworksFilters q)) },
           db) := by
  refine ⟨?_, ?_, ?_, ?_, rfl⟩
  · intro h
    simp [parseFanworksFilters, listParam, h]
  · intro h
    simp [parseFanworksFilters, listParam, strOrArrTruthy, h]
  · intro h
    rcases h with h | h
    · simp only [getFanworks, getFanworksNoTagStage, h]
    · simp only [getFanworks, getFanworksNoTagStage, h, List.isEmpty_nil, if_true]
  · intro hts hne hnx
    have hemp : ts.isEmpty = false := by
      cases ts with
      | nil => exact absurd rfl hne
      | cons a l => rfl
    simp only [getFanworks, hts, hemp, Bool.false_eq_true, if_false]
    rw [show List.filter (matchesTagFilter db ts)
          (applyStrFilter f.rating (fun fw => fw.rating)
            (applyStrFilter f.type (fun fw => fw.type)
              (db.fanworks.filter (fun fw => !fw.hidden)))) = [] by
      apply List.filter_eq_nil_iff.mpr
      intro fw hfw
      simp only [matchesTagFilter, List.any_eq_true]
      rintro ⟨t, ht, hcont⟩
      exact hnx t ht fw.id (by simpa using hcont)]
    rw [applySearchFilter_nil, applyAuthorFilter_nil, applyOffsetLimit_nil]

/-- Concrete instance of claim C7: filtering the one-fanwork database by a
tag nobody carries yields the empty list; with no tag filter the catalog
equals the pipeline without the tag stage and returns the fanwork. -/
theorem claim_C7_witness :
    getFanworks dbWithFanwork
        { type := none, rating := none, tags := some ["missing"], search := none
          authorId := none, limit := some 20, offset := some 0 } = []
    ∧ getFanworks dbWithFanwork
        { type := none, rating := none, tags := none, search := none
          authorId := none, limit := some 20, offset := some 0 } = [sampleFanwork] := by
  refine ⟨?_, ?_⟩
  · exact (claim_C7 dbWithFanwork ⟨none, none, none, none, none, none, none⟩
      { type := none, rating := none, tags := some ["missing"], search := none
        authorId := none, limit := some 20, offset := some 0 } ["missing"]).2.2.2.1
      rfl (by decide)
      (by
        intro t ht x
        simp [dbWithFanwork, dbWithUser, dbEmpty])
  · have h := (claim_C7 dbWithFanwork ⟨none, none, none, none, none, none, none⟩
      { type := none, rating := none, tags := none, search := none
        authorId := none, limit := some 20, offset := some 0 } []).2.2.1 (Or.inl rfl)
    rw [h]
    decide

/-- Claim C8: on a valid POST /api/fanworks body the fanwork row is created
first in every branch; tag attachment runs only when a truthy tags value was
supplied and only on the already-created fanwork's id; when the tag write
fails the handler answers 500 but the created fanwork stays (no rollback)
and no tag rows exist; creation itself never touches the tag table. -/
theorem claim_C8 (db : DB) (u : AuthUser) (b : FanworkBody) (file : Option String)
    (hv : fanworkErrors b = []) :
    (∀ tagFail, (b.tags = none ∨ b.tags = some (.str "")) →
      createFanworkHandler db u b file tagFail
        = ({ status := 201, body := .fanworkOk (createFanwork db (newFanworkOf u b file)).1 },
           (createFanwork db (newFanworkOf u b file)).2))
    ∧ (∀ v, b.tags = some v → strOrArrTruthy v = true →
        createFanworkHandler db u b file false
          = ({ status := 201, body := .fanworkOk (createFanwork db (newFanworkOf u b file)).1 },
             addTagsToFanwork (createFanwork db (newFanworkOf u b file)).2
               (createFanwork db (newFanworkOf u b file)).1.id (toStringList v)))
    ∧ (∀ v, b.tags = some v → strOrArrTruthy v = true →
        createFanworkHandler db u b file true
          = ({ status := 500, body := .message "Failed to create fanwork" },
             (createFanwork db (newFanworkOf u b file)).2))
    ∧ (createFanwork db (newFanworkOf u b file)).1
        ∈ (createFanwork db (newFanworkOf u b file)).2.fanworks
    ∧ (createFanwork db (newFanworkOf u b file)).2.fanworkTags = db.fanworkTags := by
  refine ⟨?_, ?_, ?_, ?_, ?_⟩
  · intro tagFail h
    rcases h with h | h
    · simp only [createFanworkHandler, fanworkParse, if_pos hv, h, newFanworkOf]
    · simp only [createFanworkHandler, fanworkParse, if_pos hv, h, newFanworkOf,
        strOrArrTruthy]
      simp
  · intro v hv2 htr
    simp only [createFanworkHandler, fanworkParse, if_pos hv, hv2, htr, if_true,
      Bool.false_eq_true, if_false, newFanworkOf]
  · intro v hv2 htr
    simp only [createFanworkHandler, fanworkParse, if_pos hv, hv2, htr, if_true,
      newFanworkOf]
  · simp [createFanwork]
  · rfl

/-- Concrete instance of claim C8: a failing tag write after creating a
fanwork with tags answers 500 and leaves the fanwork row in place with no
tag rows attached. -/
theorem claim_C8_witness :
    createFanworkHandler dbEmpty ⟨1, Role.user⟩
        { title := some "W", description := none, type := some "artwork"
          rating := some "teen", content := none, tags := some (.arr ["t1"]) }
        none true
      = ({ status := 500, body := .message "Failed to create fanwork" },
         { dbEmpty with
             fanworks := [{ id := 1, authorId := 1, title := "W", description := none
                            type := "artwork", rating := "teen", content := none
                            contentUrl := none, ao3WorkId := none, ao3Url := none
                            hidden := false }]
             nextId := 2 }) := by
  have h := (claim_C8 dbEmpty ⟨1, Role.user⟩
    { title := some "W", description := none, type := some "artwork"
      rating := some "teen", content := none, tags := some (.arr ["t1"]) }
    none (by decide)).2.2.1 (.arr ["t1"]) rfl (by decide)
  rw [h]
  decide

/-- Claim C10: an omitted limit defaults to 20 and an omitted offset to 0; a
supplied value is run through `parseInt` and stored in the filters without
any clamping; and the handler hands exactly those filters to the catalog
query. -/
theorem claim_C10 (db : DB) (q : FanworksQuery) :
    (q.limit = none → (parseFanworksFilters q).limit = some 20)
    ∧ (q.offset = none → (parseFanworksFilters q).offset = some 0)
    ∧ (∀ s, q.limit = some s → s ≠ "" → (parseFanworksFilters q).limit = parseIntJS s)
    ∧ (∀ s, q.offset = some s → s ≠ "" → (parseFanworksFilters q).offset = parseIntJS s)
    ∧ fanworksListHandler db q
        = ({ status := 200, body := .fanworkList (getFanworks db (parseFanworksFilters q)) },
           db) := by
  refine ⟨?_, ?_, ?_, ?_, rfl⟩
  · intro h
    simp [parseFanworksFilters, intParam, h]
  · intro h
    simp [parseFanworksFilters, intParam, h]
  · intro s hs hne
    simp [parseFanworksFilters, intParam, hs, hne]
  · intro s hs hne
    simp [parseFanworksFilters, intParam, hs, hne]

/-- Concrete instance of claim C10: missing limit/offset default to 20/0; a
huge supplied limit is parsed and kept unclamped. -/
theorem claim_C10_witness :
    (parseFanworksFilters ⟨none, none, none, none, none, none, none⟩).limit = some 20
    ∧ (parseFanworksFilters ⟨none, none, none, none, none, none, none⟩).offset = some 0
    ∧ (parseFanworksFilters ⟨none, none, none, none, none, some "1000000", some "7"⟩).limit
        = some 1000000 := by
  refine ⟨(claim_C10 dbEmpty _).1 rfl, (claim_C10 dbEmpty _).2.1 rfl, ?_⟩
  · have h := (claim_C10 dbEmpty
      ⟨none, none, none, none, none, some "1000000", some "7"⟩).2.2.1 "1000000" rfl (by decide)
    rw [h]
    decide

end Remarchive
